import Mathlib

/-!
# srKasse SKU allocation core — shallow embedding

This file embeds the SKU allocation core of the srKasse repository in Lean 4
and proves the specification claims about it.

Embedded code:
* `app/services/product_service.py` — `_format_human_sku`, `_format_numeric_sku`,
  `_slug_from_name`, `get_next_sequence`, `create_product`;
* `app/schemas/product.py` — the `ProductCreate` pydantic schema and its field
  constraints (validated by the framework before `create_product` runs, see
  `app/routers/products.py`);
* `app/models/product_counter.py` / `app/models/product.py` — the counter and
  product tables, modelled as a `Store`;
* `scripts/seed_products_from_skus_db.py` — `ensure_counter_at_least`;
* `sr-sku-gen.py` — the legacy SQLite tool's `get_next_sequence` (which commits
  inside the allocator) and `create_sku_record`.

Python strings are modelled as Lean `String` (a list of unicode characters, as
in CPython); `str.zfill`, `s[-1]`, `str.strip` are embedded faithfully.
Per-character `str.lower` / `str.isalnum` are modelled by `pyLowerChar` /
`pyIsAlnum`: exact on ASCII and on the Unicode special case U+0130 'İ'
(whose CPython lowercase is the two-character "i" + combining dot U+0307,
the input on which slug idempotence fails); other non-ASCII characters are
treated as caseless and non-alphanumeric.
UUIDs are opaque identifiers, modelled as `Nat`.
Database state is explicit: a counters table is a function from allocation keys
to an optional stored counter value, and a session holds a committed and a
pending store (`flush` touches only the pending store, `commit` publishes it,
rollback discards it).
-/

namespace SrKasse

/-- Python `str.zfill(width)`: left-pad with `'0'` up to `width`, keeping a
leading `'+'`/`'-'` sign in front of the padding. -/
def pyZfill (s : String) (width : Nat) : String :=
  if width ≤ s.length then s
  else
    match s.data with
    | [] => String.mk (List.replicate width '0')
    | c :: rest =>
      if c = '+' ∨ c = '-' then
        String.mk (c :: (List.replicate (width - s.length) '0' ++ rest))
      else
        String.mk (List.replicate (width - s.length) '0' ++ s.data)

/-- Python `s[-1] if len(s) > 0 else '0'` (the subcategory/quantity
normalisation in `create_product` lines 89–98 and `create_sku_record`
lines 519–520): the one-character string holding the last character,
or `"0"` for empty input. -/
def lastCharOrZero (s : String) : String :=
  match s.data.getLast? with
  | some c => String.mk [c]
  | none => "0"

/-- Embeds `product_service._format_human_sku` (lines 12–19):
`f"{brand}-{category}-{subcategory}-{quantity}-{seq}"`. -/
def _format_human_sku (brand_code category_code subcategory_code quantity_code
    product_seq : String) : String :=
  brand_code ++ "-" ++ category_code ++ "-" ++ subcategory_code ++ "-" ++
    quantity_code ++ "-" ++ product_seq

/-- Embeds `product_service._format_numeric_sku` (lines 22–29):
`f"{brand}{category}{subcategory}{quantity}{seq}"`. -/
def _format_numeric_sku (brand_code category_code subcategory_code quantity_code
    product_seq : String) : String :=
  brand_code ++ category_code ++ subcategory_code ++ quantity_code ++ product_seq

/-- Models CPython's per-character `str.lower` as used in `_slug_from_name`:
a character lowers to a *string*. The model is exact on ASCII (`Char.toLower`)
and on U+0130 LATIN CAPITAL LETTER I WITH DOT ABOVE, whose CPython lowercase
is the two-character sequence "i" + U+0307 COMBINING DOT ABOVE — the one
unconditional multi-character lowercase mapping in Unicode's SpecialCasing.
Other non-ASCII characters are treated as caseless (identity), which agrees
with CPython for uncased characters. -/
def pyLowerChar (c : Char) : List Char :=
  if c.toNat = 304 then [Char.ofNat 105, Char.ofNat 775] else [c.toLower]

/-- Models CPython's per-character `str.isalnum` on the fragment the claims
exercise: exact on ASCII (`Char.isAlphanum`), and on U+0130 (an alphanumeric
letter) and U+0307 (a combining mark, not alphanumeric; it is non-ASCII and
not 304, so the first disjunct and the second are both false for it). Other
non-ASCII characters are treated as non-alphanumeric. -/
def pyIsAlnum (c : Char) : Bool :=
  c.isAlphanum || c.toNat == 304

/-- One character of the slug comprehension in `_slug_from_name` /
`create_sku_record` line 514: `c.lower() if c.isalnum() else '-'` — the
string fragment this character contributes to the join. -/
def slugChar (c : Char) : List Char :=
  if pyIsAlnum c then pyLowerChar c else ['-']

/-- The strip predicate of `str.strip("-")`. -/
def isDash (c : Char) : Bool := c == '-'

/-- Python `str.strip("-")` on the character list: drop `'-'` from both ends. -/
def stripDashes (l : List Char) : List Char :=
  ((l.dropWhile isDash).reverse.dropWhile isDash).reverse

/-- Embeds `product_service._slug_from_name` (lines 32–35):
`"".join(c.lower() if c.isalnum() else '-' for c in name).strip("-")`:
join the per-character fragments, then strip dashes from both ends.
The identical expression appears inline in `create_sku_record` line 514. -/
def _slug_from_name (name : String) : String :=
  String.mk (stripDashes (List.flatten (name.data.map slugChar)))

/-- The composite allocation key of `ProductCounter`
(`app/models/product_counter.py` lines 14–18): the five primary-key columns.
The legacy SQLite tool's `counters` table has no tenant column; its rows are
modelled with `tenant_id = 0`. -/
structure AllocKey where
  tenant_id : Nat
  brand_code : String
  category_code : String
  subcategory_code : String
  quantity_code : String
deriving DecidableEq

/-- The counters table: each allocation key maps to the stored `counter`
column of its row, or `none` when no row exists. -/
def Counters : Type := AllocKey → Option Nat

/-- The `SELECT ... WHERE <all five key columns>` of `get_next_sequence`
(lines 47–55): read the counter row for the exact key, without any lock. -/
def counterRead (db : Counters) (k : AllocKey) : Option Nat := db k

/-- The value computed from the read row in `get_next_sequence`:
`1` when no row exists (lines 56–67), `counter + 1` otherwise (line 68). -/
def nextFromRow : Option Nat → Nat
  | none => 1
  | some n => n + 1

/-- The write of `get_next_sequence`: `INSERT` of a fresh row (lines 57–65) or
`UPDATE` of the existing row (line 69); both store `v` for key `k`. -/
def counterWrite (db : Counters) (k : AllocKey) (v : Nat) : Counters :=
  fun q => if q = k then some v else db q

/-- Embeds `product_service.get_next_sequence` (lines 38–71) as one uninterrupted
read-modify-write: read the row, compute the next value, write it back, return
it. (Whether the two steps may interleave with a concurrent call is modelled
separately by `get_next_sequence_race`.) -/
def get_next_sequence (db : Counters) (k : AllocKey) : Nat × Counters :=
  let row := counterRead db k
  let v := nextFromRow row
  (v, counterWrite db k v)

/-- Two concurrent `get_next_sequence` transactions for the same key under the
schedule read₁, read₂, write₁, write₂. The `SELECT` in lines 47–54 carries no
`FOR UPDATE` (and the update is a plain ORM attribute write), so nothing stops
both transactions from reading the same snapshot before either write commits;
this function executes exactly the reads and writes of the source under that
schedule and returns both returned values and the final table. -/
def get_next_sequence_race (db : Counters) (k : AllocKey) : Nat × Nat × Counters :=
  let row1 := counterRead db k
  let row2 := counterRead db k
  let v1 := nextFromRow row1
  let db1 := counterWrite db k v1
  let v2 := nextFromRow row2
  let db2 := counterWrite db1 k v2
  (v1, v2, db2)

/-- Embeds `scripts/seed_products_from_skus_db.ensure_counter_at_least`
(lines 54–86): select the row for the exact key; if absent, insert a row with
`counter = max(1, at_least + 1)`; if present with `counter <= at_least`, set
`counter = at_least + 1`; otherwise leave it alone. -/
def ensure_counter_at_least (db : Counters) (k : AllocKey) (at_least : Nat) :
    Counters :=
  match db k with
  | none => counterWrite db k (max 1 (at_least + 1))
  | some c => if c ≤ at_least then counterWrite db k (at_least + 1) else db

/-- The `ProductCreate` pydantic schema (`app/schemas/product.py` lines 7–18):
the request body of `POST /products/`. -/
structure ProductCreate where
  brand_code : String
  category_code : String
  subcategory_code : String
  quantity_code : String
  full_product_name : String
  country_code : Option String
  note : Option String
  barcode : Option String
  unit_price : Option Rat
deriving DecidableEq

/-- The field constraints of `ProductCreate` (min/max lengths of
`app/schemas/product.py` lines 10–17), checked by the framework while parsing
the request body, before the service code runs. -/
def product_create_valid (d : ProductCreate) : Bool :=
  1 ≤ d.brand_code.length && d.brand_code.length ≤ 8 &&
  (1 ≤ d.category_code.length && d.category_code.length ≤ 8) &&
  (1 ≤ d.subcategory_code.length && d.subcategory_code.length ≤ 8) &&
  (1 ≤ d.quantity_code.length && d.quantity_code.length ≤ 8) &&
  (1 ≤ d.full_product_name.length && d.full_product_name.length ≤ 255) &&
  (match d.country_code with | some s => s.length ≤ 16 | none => true) &&
  (match d.note with | some s => s.length ≤ 512 | none => true) &&
  (match d.barcode with | some s => s.length ≤ 64 | none => true)

/-- A row of the `products` table, with the columns `create_product`
fills (`app/models/product.py`; assignment at `product_service.py`
lines 118–133). The generated opaque id and timestamps are omitted. -/
structure ProductRow where
  tenant_id : Nat
  human_sku : String
  numeric_sku : String
  brand_code : String
  category_code : String
  subcategory_code : String
  quantity_code : String
  product_seq : String
  product_slug : String
  full_product_name : String
  country_code : Option String
  note : Option String
  barcode : Option String
  unit_price : Option Rat
deriving DecidableEq

/-- The relational store the core touches: the counters table and the
products table. -/
structure Store where
  counters : Counters
  products : List ProductRow

/-- A database session: the durably committed store and the pending
in-transaction view. `session.flush()` only moves changes into `pending`;
`commit` publishes `pending`; an abort discards it. -/
structure DbSession where
  committed : Store
  pending : Store

/-- Models `session.commit()` / `conn.commit()`: publish the pending changes. -/
def sessionCommit (s : DbSession) : DbSession := ⟨s.pending, s.pending⟩

/-- Transaction abort/rollback: discard the pending changes. -/
def sessionRollback (s : DbSession) : DbSession := ⟨s.committed, s.committed⟩

/-- The code normalisation of `create_product` (lines 87–98) producing the
allocation key passed to `get_next_sequence` (lines 100–107): zero-pad brand
to 3 and category to 2, reduce subcategory and quantity to their trailing
character (empty becomes `"0"`), and pair with the authenticated tenant id. -/
def allocKeyOf (tenant_id : Nat) (d : ProductCreate) : AllocKey :=
  { tenant_id := tenant_id
    brand_code := pyZfill d.brand_code 3
    category_code := pyZfill d.category_code 2
    subcategory_code := lastCharOrZero d.subcategory_code
    quantity_code := lastCharOrZero d.quantity_code }

/-- Lines 108–133 of `create_product`: zero-pad the issued sequence to two
digits, compose both SKUs, derive the slug, and build the `Product` row from
the normalised codes plus the caller-supplied descriptive fields.
`tenant_id` comes from the authenticated `TenantContext`, never the body. -/
def buildProduct (tenant_id : Nat) (d : ProductCreate) (seq : Nat) : ProductRow :=
  let key := allocKeyOf tenant_id d
  let product_seq := pyZfill (toString seq) 2
  { tenant_id := tenant_id
    human_sku := _format_human_sku key.brand_code key.category_code
      key.subcategory_code key.quantity_code product_seq
    numeric_sku := _format_numeric_sku key.brand_code key.category_code
      key.subcategory_code key.quantity_code product_seq
    brand_code := key.brand_code
    category_code := key.category_code
    subcategory_code := key.subcategory_code
    quantity_code := key.quantity_code
    product_seq := product_seq
    product_slug := _slug_from_name d.full_product_name
    full_product_name := d.full_product_name
    country_code := d.country_code
    note := d.note
    barcode := d.barcode
    unit_price := d.unit_price }

/-- The allocation phase of `create_product` (lines 87–107): normalise the
codes and run `get_next_sequence` in the current transaction. The allocator
only flushes (lines 66, 70), so the counter change stays pending. -/
def create_product_alloc_phase (s : DbSession) (tenant_id : Nat)
    (d : ProductCreate) : Nat × DbSession :=
  let key := allocKeyOf tenant_id d
  let (seq, counters1) := get_next_sequence s.pending.counters key
  (seq, ⟨s.committed, { s.pending with counters := counters1 }⟩)

/-- The insert phase of `create_product` (line 134, `session.add(product)`):
the new row joins the pending store only. -/
def create_product_insert_phase (s : DbSession) (p : ProductRow) : DbSession :=
  ⟨s.committed, { s.pending with products := s.pending.products ++ [p] }⟩

/-- Embeds `product_service.create_product` (lines 82–137) on its session: allocation
phase, insert phase, then the single `session.commit()` of line 135. -/
def create_product_session (s : DbSession) (tenant_id : Nat) (d : ProductCreate) :
    ProductRow × DbSession :=
  let (seq, s1) := create_product_alloc_phase s tenant_id d
  let p := buildProduct tenant_id d seq
  let s2 := create_product_insert_phase s1 p
  (p, sessionCommit s2)

/-- Runs `create_product` as a function on the committed store: a fresh
per-request session (`app/db/session.get_session`) and keep what commits. -/
def create_product (st : Store) (tenant_id : Nat) (d : ProductCreate) :
    ProductRow × Store :=
  let (p, s) := create_product_session ⟨st, st⟩ tenant_id d
  (p, s.committed)

/-- The `POST /products/` route (`app/routers/products.py` lines 40–47): the
framework validates the body against `ProductCreate` first and answers 422
(`ValidationError`) without entering the service; otherwise it calls
`create_product` with the authenticated tenant. -/
def post_product (st : Store) (tenant_id : Nat) (d : ProductCreate) :
    Except String (ProductRow × Store) :=
  if product_create_valid d then Except.ok (create_product st tenant_id d)
  else Except.error "ValidationError"

/-- The committed store after a `POST /products/` request: unchanged when the
request is rejected. -/
def post_product_store (st : Store) (tenant_id : Nat) (d : ProductCreate) :
    Store :=
  match post_product st tenant_id d with
  | Except.ok (_, st1) => st1
  | Except.error _ => st

/-- Embeds `sr-sku-gen.get_next_sequence` (lines 491–509): the legacy SQLite variant.
Same read-modify-write as the service one, but it ends with `conn.commit()`
(lines 500 and 506), so the counter change is durably committed inside the
allocator itself. -/
def skuGen_get_next_sequence (s : DbSession) (k : AllocKey) : Nat × DbSession :=
  let row := counterRead s.pending.counters k
  let v := nextFromRow row
  let pending1 := { s.pending with counters := counterWrite s.pending.counters k v }
  (v, sessionCommit ⟨s.committed, pending1⟩)

/-- Embeds `sr-sku-gen.create_sku_record` (lines 512–536): slug, normalise the codes
(lines 514–520), call the committing allocator (line 522), compose both SKUs,
insert the sku row and commit again (lines 531–533). -/
def create_sku_record (s : DbSession) (brand_code category_code
    subcategory_code quantity_code product_name : String)
    (country_code note barcode : Option String) :
    (String × String) × DbSession :=
  let slug := _slug_from_name product_name
  let b := pyZfill brand_code 3
  let c := pyZfill category_code 2
  let sub := lastCharOrZero subcategory_code
  let q := lastCharOrZero quantity_code
  let key : AllocKey := ⟨0, b, c, sub, q⟩
  let (seq, s1) := skuGen_get_next_sequence s key
  let product_seq := pyZfill (toString seq) 2
  let human_sku := _format_human_sku b c sub q product_seq
  let numeric_sku := _format_numeric_sku b c sub q product_seq
  let row : ProductRow :=
    { tenant_id := 0, human_sku := human_sku, numeric_sku := numeric_sku
      brand_code := b, category_code := c, subcategory_code := sub
      quantity_code := q, product_seq := product_seq, product_slug := slug
      full_product_name := product_name, country_code := country_code
      note := note, barcode := barcode, unit_price := none }
  let s2 := ⟨s1.committed, { s1.pending with products := s1.pending.products ++ [row] }⟩
  ((human_sku, numeric_sku), sessionCommit s2)

/-- The legacy creation flow aborted right after its allocator call (between
line 522 and the insert of line 531): what stays durably committed. -/
def create_sku_record_aborted_after_alloc (s : DbSession) (brand_code
    category_code subcategory_code quantity_code : String) : Store :=
  let b := pyZfill brand_code 3
  let c := pyZfill category_code 2
  let sub := lastCharOrZero subcategory_code
  let q := lastCharOrZero quantity_code
  let key : AllocKey := ⟨0, b, c, sub, q⟩
  (sessionRollback (skuGen_get_next_sequence s key).2).committed

/-- The empty counters table. -/
def emptyCounters : Counters := fun _ => none

/-- The empty store. -/
def emptyStore : Store := ⟨emptyCounters, []⟩

/-! ## Character-level facts about the ASCII `lower`/`isalnum` model -/

theorem char_toNat_ofNat (n : Nat) (h : n < 55296) : (Char.ofNat n).toNat = n := by
  have hv : n.isValidChar := Or.inl h
  simp only [Char.ofNat, dif_pos hv]
  simp [Char.ofNatAux, Char.toNat, UInt32.toNat, UInt32.ofNatCore]

theorem toLower_def (c : Char) :
    c.toLower = if 65 ≤ c.toNat ∧ c.toNat ≤ 90 then Char.ofNat (c.toNat + 32) else c := by
  simp [Char.toLower]

theorem toNat_toLower (c : Char) :
    c.toLower.toNat = if 65 ≤ c.toNat ∧ c.toNat ≤ 90 then c.toNat + 32 else c.toNat := by
  rw [toLower_def]
  split
  · next h => exact char_toNat_ofNat _ (by omega)
  · rfl

theorem isAlphanum_iff (c : Char) : c.isAlphanum = true ↔
    (65 ≤ c.toNat ∧ c.toNat ≤ 90) ∨ (97 ≤ c.toNat ∧ c.toNat ≤ 122) ∨
    (48 ≤ c.toNat ∧ c.toNat ≤ 57) := by
  simp [Char.isAlphanum, Char.isAlpha, Char.isUpper, Char.isLower, Char.isDigit, Char.toNat]
  tauto

theorem isAlphanum_toLower (c : Char) (h : c.isAlphanum = true) :
    c.toLower.isAlphanum = true := by
  rw [isAlphanum_iff] at h ⊢
  rw [toNat_toLower]
  by_cases hc : 65 ≤ c.toNat ∧ c.toNat ≤ 90
  · rw [if_pos hc]; omega
  · rw [if_neg hc]; omega

theorem toLower_toLower (c : Char) : c.toLower.toLower = c.toLower := by
  have hfalse : ¬(65 ≤ c.toLower.toNat ∧ c.toLower.toNat ≤ 90) := by
    rw [toNat_toLower]
    by_cases hc : 65 ≤ c.toNat ∧ c.toNat ≤ 90
    · rw [if_pos hc]; omega
    · rw [if_neg hc]; omega
  rw [toLower_def c.toLower, if_neg hfalse]

theorem slugChar_fixed_of_ascii (c : Char) (hc : c.toNat < 128) :
    ∀ d ∈ slugChar c, slugChar d = [d] := by
  intro d hd
  by_cases ha : pyIsAlnum c = true
  · unfold slugChar pyLowerChar at hd
    rw [if_pos ha, if_neg (by omega)] at hd
    have hdc : d = c.toLower := by simpa using hd
    subst hdc
    have halnum : c.isAlphanum = true := by
      have h304 : (c.toNat == 304) = false := by
        simp
        omega
      rw [pyIsAlnum, h304, Bool.or_false] at ha
      exact ha
    have hl : c.toLower.isAlphanum = true := isAlphanum_toLower c halnum
    have hlnat : c.toLower.toNat < 128 := by
      rw [toNat_toLower]
      by_cases h : 65 ≤ c.toNat ∧ c.toNat ≤ 90
      · rw [if_pos h]; omega
      · rw [if_neg h]; omega
    have hla : pyIsAlnum c.toLower = true := by
      rw [pyIsAlnum, hl]
      rfl
    unfold slugChar pyLowerChar
    rw [if_pos hla, if_neg (by omega), toLower_toLower]
  · unfold slugChar at hd
    rw [if_neg ha] at hd
    have hdc : d = '-' := by simpa using hd
    subst hdc
    decide

/-! ## Facts about `dropWhile` and `stripDashes` -/

theorem dropWhile_head_not {α : Type} (p : α → Bool) :
    ∀ (l : List α) (c : α) (t : List α), l.dropWhile p = c :: t → p c = false := by
  intro l
  induction l with
  | nil => intro c t h; simp [List.dropWhile] at h
  | cons a l ih =>
    intro c t h
    rw [List.dropWhile_cons] at h
    by_cases ha : p a = true
    · rw [if_pos ha] at h; exact ih c t h
    · rw [if_neg ha] at h
      cases h
      simpa using ha

theorem dropWhile_of_head_not {α : Type} (p : α → Bool) (c : α) (t : List α)
    (h : p c = false) : (c :: t).dropWhile p = c :: t := by
  rw [List.dropWhile_cons, if_neg (by simp [h])]

theorem dropWhile_self_of_eq {α : Type} (p : α → Bool) (l m : List α)
    (h : l.dropWhile p = m) : m.dropWhile p = m := by
  cases hm : m with
  | nil => rfl
  | cons c t =>
    subst h
    exact dropWhile_of_head_not p c t (dropWhile_head_not p l c t hm)

theorem exists_append_dropWhile {α : Type} (p : α → Bool) :
    ∀ l : List α, ∃ t : List α, l = t ++ l.dropWhile p := by
  intro l
  induction l with
  | nil => exact ⟨[], rfl⟩
  | cons a l ih =>
    by_cases ha : p a = true
    · obtain ⟨t, ht⟩ := ih
      refine ⟨a :: t, ?_⟩
      rw [List.dropWhile_cons, if_pos ha]
      simpa using ht
    · refine ⟨[], ?_⟩
      rw [List.dropWhile_cons, if_neg ha]
      rfl

theorem stripDashes_dropWhile (l : List Char) :
    (stripDashes l).dropWhile isDash = stripDashes l := by
  unfold stripDashes
  obtain ⟨t, ht⟩ := exists_append_dropWhile isDash (l.dropWhile isDash).reverse
  cases hBr : ((l.dropWhile isDash).reverse.dropWhile isDash).reverse with
  | nil => rfl
  | cons c u =>
    have hA : l.dropWhile isDash = c :: (u ++ t.reverse) := by
      have h2 := congrArg List.reverse ht
      rw [List.reverse_reverse, List.reverse_append] at h2
      rw [hBr] at h2
      simpa using h2
    have hc : isDash c = false := dropWhile_head_not isDash l c (u ++ t.reverse) hA
    exact dropWhile_of_head_not isDash c u hc

theorem stripDashes_idem (l : List Char) :
    stripDashes (stripDashes l) = stripDashes l := by
  have h1 : (stripDashes l).dropWhile isDash = stripDashes l := stripDashes_dropWhile l
  show ((((stripDashes l).dropWhile isDash).reverse.dropWhile isDash)).reverse = stripDashes l
  rw [h1]
  unfold stripDashes
  rw [List.reverse_reverse]
  rw [dropWhile_self_of_eq isDash (l.dropWhile isDash).reverse _ rfl]

theorem mem_of_mem_dropWhile {α : Type} (p : α → Bool) (l : List α) (c : α)
    (h : c ∈ l.dropWhile p) : c ∈ l := by
  obtain ⟨t, ht⟩ := exists_append_dropWhile p l
  rw [ht]
  exact List.mem_append_right t h

theorem mem_of_mem_stripDashes (l : List Char) (c : Char)
    (h : c ∈ stripDashes l) : c ∈ l := by
  unfold stripDashes at h
  rw [List.mem_reverse] at h
  have h2 := mem_of_mem_dropWhile isDash (l.dropWhile isDash).reverse c h
  rw [List.mem_reverse] at h2
  exact mem_of_mem_dropWhile isDash l c h2

theorem join_map_slugChar_eq_self :
    ∀ l : List Char, (∀ a ∈ l, slugChar a = [a]) → (l.map slugChar).flatten = l := by
  intro l
  induction l with
  | nil => intro h; rfl
  | cons a t ih =>
    intro h
    rw [List.map_cons, List.flatten_cons, h a (List.mem_cons_self a t),
      ih (fun b hb => h b (List.mem_cons_of_mem a hb))]
    rfl

theorem slug_ascii_map_fixed (x : String) (hx : ∀ c ∈ x.data, c.toNat < 128) :
    ((stripDashes (List.flatten (x.data.map slugChar))).map slugChar).flatten
      = stripDashes (List.flatten (x.data.map slugChar)) := by
  apply join_map_slugChar_eq_self
  intro d hd
  have hj := mem_of_mem_stripDashes _ d hd
  obtain ⟨L, hL, hdL⟩ := List.mem_flatten.mp hj
  obtain ⟨c, hcx, hcL⟩ := List.mem_map.mp hL
  exact slugChar_fixed_of_ascii c (hx c hcx) d (hcL ▸ hdL)


theorem length_pyZfill (s : String) (w : Nat) : (pyZfill s w).length = max s.length w := by
  unfold pyZfill
  by_cases h : w ≤ s.length
  · rw [if_pos h]; omega
  · rw [if_neg h]
    have hlen : s.length = s.data.length := rfl
    cases hd : s.data with
    | nil =>
      have h0 : s.length = 0 := by rw [hlen, hd]; rfl
      show (String.mk (List.replicate w '0')).length = max s.length w
      have : (String.mk (List.replicate w '0')).length = w := by
        show (List.replicate w '0').length = w
        simp
      omega
    | cons c rest =>
      have h1 : s.length = 1 + rest.length := by rw [hlen, hd]; simp [List.length_cons]; omega
      show (if c = '+' ∨ c = '-' then
          String.mk (c :: (List.replicate (w - s.length) '0' ++ rest))
        else String.mk (List.replicate (w - s.length) '0' ++ (c :: rest))).length
        = max s.length w
      by_cases hc : c = '+' ∨ c = '-'
      · rw [if_pos hc]
        show (c :: (List.replicate (w - s.length) '0' ++ rest)).length = max s.length w
        simp
        omega
      · rw [if_neg hc]
        show (List.replicate (w - s.length) '0' ++ (c :: rest)).length = max s.length w
        simp
        omega


/-! ## Concrete fixtures used by witnesses and counterexamples -/

/-- A concrete allocation key (tenant 1, normalised codes). -/
def k0 : AllocKey := ⟨1, "001", "01", "1", "1"⟩

/-- A counters table where `k0` holds counter value 1 (one allocation issued). -/
def db1 : Counters := counterWrite emptyCounters k0 1

/-- A counters table where `k0` holds counter value 3. -/
def db3 : Counters := counterWrite emptyCounters k0 3

/-- The creation request of the end-to-end scenario: brand "1", category "1",
subcategory "1", quantity "1", name "Product A1". -/
def sampleA1 : ProductCreate :=
  { brand_code := "1", category_code := "1", subcategory_code := "1",
    quantity_code := "1", full_product_name := "Product A1",
    country_code := none, note := none, barcode := none, unit_price := none }

/-- A request whose name has no alphanumeric character. -/
def sampleBang : ProductCreate := { sampleA1 with full_product_name := "!!!" }

/-- A request with an empty product name. -/
def sampleNoName : ProductCreate := { sampleA1 with full_product_name := "" }

/-- C1: AllocateNext contract — when no counter row exists for the exact key,
`get_next_sequence` stores a row with value 1 and returns 1; when a row with
value N exists, it stores N+1 and returns N+1. -/
theorem C1_allocate_next_contract (db : Counters) (k : AllocKey) :
    (db k = none →
      (get_next_sequence db k).1 = 1 ∧ (get_next_sequence db k).2 k = some 1) ∧
    (∀ n : Nat, db k = some n →
      (get_next_sequence db k).1 = n + 1 ∧
        (get_next_sequence db k).2 k = some (n + 1)) := by
  constructor
  · intro h
    simp [get_next_sequence, counterRead, nextFromRow, counterWrite, h]
  · intro n h
    simp [get_next_sequence, counterRead, nextFromRow, counterWrite, h]

/-- Witness for C1 at the empty table and at a table holding counter 1. -/
theorem C1_allocate_next_contract_witness :
    ((get_next_sequence emptyCounters k0).1 = 1 ∧
      (get_next_sequence emptyCounters k0).2 k0 = some 1) ∧
    ((get_next_sequence db1 k0).1 = 2 ∧ (get_next_sequence db1 k0).2 k0 = some 2) :=
  ⟨(C1_allocate_next_contract emptyCounters k0).1 rfl,
    (C1_allocate_next_contract db1 k0).2 1 (by decide)⟩

/-- C2: the code's allocation is a plain read-then-write (the `SELECT` of
`get_next_sequence` takes no row lock), so under the interleaving
read₁ read₂ write₁ write₂ two concurrent calls for the same key both return 2
on a table whose counter holds 1 — a duplicate, where the claimed contract
requires the two fresh values 2 and 3. -/
theorem C2_read_then_write_race_duplicates :
    (get_next_sequence_race db1 k0).1 = 2 ∧
    (get_next_sequence_race db1 k0).2.1 = 2 ∧
    (get_next_sequence_race db1 k0).2.2 k0 = some 2 := by
  decide

/-- C8 counterexample: the first registration of the scenario yields
numeric_sku "001011101" (the five normalised fields concatenated:
"001"+"01"+"1"+"1"+"01", nine characters), not the eight-character
"00101101" the claim states. -/
theorem C8_numeric_sku_counterexample :
    (create_product emptyStore 1 sampleA1).1.numeric_sku = "001011101" ∧
    (create_product emptyStore 1 sampleA1).1.numeric_sku ≠ "00101101" := by
  decide

/-- C8 (amended): with brand "1", category "1", subcategory "1", quantity "1"
and name "Product A1", the first registration for a fresh tenant yields
human_sku "001-01-1-1-01" and numeric_sku "001011101", and a second identical
registration yields human_sku "001-01-1-1-02". -/
theorem C8_scenario_sku_composition :
    (create_product emptyStore 1 sampleA1).1.human_sku = "001-01-1-1-01" ∧
    (create_product emptyStore 1 sampleA1).1.numeric_sku = "001011101" ∧
    (create_product (create_product emptyStore 1 sampleA1).2 1 sampleA1).1.human_sku
      = "001-01-1-1-02" := by
  decide


/-- C3 counterexample: in the legacy `create_sku_record` flow the allocator
itself runs `conn.commit()` (sr-sku-gen.py lines 500/506), so aborting the
creation right after allocation — before the insert of line 531 — leaves the
counter increment durably committed (counter 1 for the key) with no product
row, contradicting the claim that the increment is never committed
independently of the insert. -/
theorem C3_legacy_commit_counterexample :
    (create_sku_record_aborted_after_alloc ⟨emptyStore, emptyStore⟩
        "1" "1" "1" "1").counters ⟨0, "001", "01", "1", "1"⟩ = some 1 ∧
    (create_sku_record_aborted_after_alloc ⟨emptyStore, emptyStore⟩
        "1" "1" "1" "1").products = [] := by
  decide

/-- C3 (amended): in the service-layer `create_product` the counter increment
and the product insert are both pending until the single `session.commit()`
at the end, so an abort after allocation (or after the insert) rolls both back
and leaves the committed store unchanged, and the final commit publishes the
incremented counter and the inserted product together; in the legacy
`create_sku_record` of sr-sku-gen.py, by contrast, the allocator commits the
counter increment before the insert (see the counterexample). -/
theorem C3_create_product_transactional (s : DbSession) (st : Store)
    (tenant_id : Nat) (d : ProductCreate) :
    (sessionRollback (create_product_alloc_phase s tenant_id d).2).committed
      = s.committed ∧
    (sessionRollback (create_product_insert_phase
        (create_product_alloc_phase s tenant_id d).2
        (buildProduct tenant_id d (create_product_alloc_phase s tenant_id d).1))).committed
      = s.committed ∧
    (create_product st tenant_id d).2.counters (allocKeyOf tenant_id d)
      = some (nextFromRow (st.counters (allocKeyOf tenant_id d))) ∧
    (create_product st tenant_id d).1 ∈ (create_product st tenant_id d).2.products := by
  refine ⟨rfl, rfl, ?_, ?_⟩
  · simp [create_product, create_product_session, create_product_alloc_phase,
      create_product_insert_phase, sessionCommit, get_next_sequence,
      counterRead, counterWrite]
  · simp [create_product, create_product_session, create_product_alloc_phase,
      create_product_insert_phase, sessionCommit]

/-- C4 counterexample: with a counter row holding 3, `EnsureAtLeast(key, 5)`
stores 6, not max(3, 5) = 5 as the claim states. -/
theorem C4_ensure_at_least_counterexample :
    ensure_counter_at_least db3 k0 5 k0 = some 6 ∧
    max 3 5 = 5 ∧ (6 : Nat) ≠ 5 := by
  decide

/-- Helper: `ensure_counter_at_least` is the identity when the stored counter already
exceeds the requested floor. -/
theorem ensure_eq_of_lookup_gt (db : Counters) (k : AllocKey) (v c : Nat)
    (h : db k = some c) (hc : ¬ c ≤ v) : ensure_counter_at_least db k v = db := by
  unfold ensure_counter_at_least
  rw [h]
  show (if c ≤ v then counterWrite db k (v + 1) else db) = db
  rw [if_neg hc]

/-- C4 (amended): `ensure_counter_at_least` leaves the stored counter equal to
max(current, v + 1) (an absent row counting as current = 0 and being created),
touches no other key, is idempotent, and issues no sequence number — a
subsequent live allocation for the key returns a value strictly greater
than v, so it never collides with imported sequence numbers up to v. -/
theorem C4_ensure_at_least_semantics (db : Counters) (k : AllocKey) (v : Nat) :
    ensure_counter_at_least db k v k = some (max ((db k).getD 0) (v + 1)) ∧
    (∀ q, q ≠ k → ensure_counter_at_least db k v q = db q) ∧
    ensure_counter_at_least (ensure_counter_at_least db k v) k v
      = ensure_counter_at_least db k v ∧
    (get_next_sequence (ensure_counter_at_least db k v) k).1 > v := by
  have hval : ensure_counter_at_least db k v k = some (max ((db k).getD 0) (v + 1)) := by
    unfold ensure_counter_at_least
    cases h : db k with
    | none =>
      show counterWrite db k (max 1 (v + 1)) k = some (max 0 (v + 1))
      unfold counterWrite
      rw [if_pos rfl]
      have hm : max 1 (v + 1) = max 0 (v + 1) := by omega
      rw [hm]
    | some c =>
      show (if c ≤ v then counterWrite db k (v + 1) else db) k = some (max c (v + 1))
      by_cases hc : c ≤ v
      · rw [if_pos hc]
        unfold counterWrite
        rw [if_pos rfl]
        have hm : max c (v + 1) = v + 1 := by omega
        rw [hm]
      · rw [if_neg hc, h]
        have hm : max c (v + 1) = c := by omega
        rw [hm]
  refine ⟨hval, ?_, ?_, ?_⟩
  · intro q hq
    unfold ensure_counter_at_least
    cases h : db k with
    | none =>
      show counterWrite db k (max 1 (v + 1)) q = db q
      unfold counterWrite
      rw [if_neg hq]
    | some c =>
      show (if c ≤ v then counterWrite db k (v + 1) else db) q = db q
      by_cases hc : c ≤ v
      · rw [if_pos hc]
        unfold counterWrite
        rw [if_neg hq]
      · rw [if_neg hc]
  · exact ensure_eq_of_lookup_gt _ k v _ hval (by omega)
  · have h1 : (get_next_sequence (ensure_counter_at_least db k v) k).1
        = nextFromRow (ensure_counter_at_least db k v k) := rfl
    rw [h1, hval]
    show max ((db k).getD 0) (v + 1) + 1 > v
    omega

/-- Witness for C4 (amended) at a table holding 3 for the key. -/
theorem C4_ensure_at_least_semantics_witness :
    ensure_counter_at_least db3 k0 5 k0 = some (max ((db3 k0).getD 0) (5 + 1)) ∧
    ensure_counter_at_least db3 k0 5 ⟨2, "001", "01", "1", "1"⟩
      = db3 ⟨2, "001", "01", "1", "1"⟩ ∧
    ensure_counter_at_least (ensure_counter_at_least db3 k0 5) k0 5
      = ensure_counter_at_least db3 k0 5 ∧
    (get_next_sequence (ensure_counter_at_least db3 k0 5) k0).1 > 5 := by
  have h := C4_ensure_at_least_semantics db3 k0 5
  exact ⟨h.1, h.2.1 ⟨2, "001", "01", "1", "1"⟩ (by decide), h.2.2.1, h.2.2.2⟩


/-- A request with empty subcategory and quantity codes. -/
def sampleEmptyCodes : ProductCreate :=
  { sampleA1 with subcategory_code := "", quantity_code := "" }

/-- Helper: `lastCharOrZero` always yields a one-character string. -/
theorem length_lastCharOrZero (s : String) : (lastCharOrZero s).length = 1 := by
  unfold lastCharOrZero
  cases h : s.data.getLast? with
  | none => rfl
  | some c => rfl

/-- C5: normalisation happens before keying — brand is zero-padded to 3 and
category to 2 characters, subcategory and quantity are reduced to their single
trailing character with empty input defaulting to "0"; consequently two
requests whose subcategory codes are "12" and "2" produce identical creation
results (same allocation key, same counter consumed, same stored product). -/
theorem C5_normalization_before_keying (st : Store) (tenant_id : Nat)
    (d : ProductCreate) :
    create_product st tenant_id { d with subcategory_code := "12" }
      = create_product st tenant_id { d with subcategory_code := "2" } ∧
    (d.brand_code.length ≤ 3 →
      (create_product st tenant_id d).1.brand_code.length = 3) ∧
    (d.category_code.length ≤ 2 →
      (create_product st tenant_id d).1.category_code.length = 2) ∧
    (create_product st tenant_id d).1.subcategory_code.length = 1 ∧
    (create_product st tenant_id d).1.quantity_code.length = 1 ∧
    (d.subcategory_code = "" →
      (create_product st tenant_id d).1.subcategory_code = "0") ∧
    (d.quantity_code = "" →
      (create_product st tenant_id d).1.quantity_code = "0") := by
  refine ⟨rfl, ?_, ?_, ?_, ?_, ?_, ?_⟩
  · intro h
    have hb : (create_product st tenant_id d).1.brand_code = pyZfill d.brand_code 3 := rfl
    rw [hb, length_pyZfill]
    omega
  · intro h
    have hb : (create_product st tenant_id d).1.category_code = pyZfill d.category_code 2 := rfl
    rw [hb, length_pyZfill]
    omega
  · have hb : (create_product st tenant_id d).1.subcategory_code
        = lastCharOrZero d.subcategory_code := rfl
    rw [hb, length_lastCharOrZero]
  · have hb : (create_product st tenant_id d).1.quantity_code
        = lastCharOrZero d.quantity_code := rfl
    rw [hb, length_lastCharOrZero]
  · intro h
    have hb : (create_product st tenant_id d).1.subcategory_code
        = lastCharOrZero d.subcategory_code := rfl
    rw [hb, h]
    rfl
  · intro h
    have hb : (create_product st tenant_id d).1.quantity_code
        = lastCharOrZero d.quantity_code := rfl
    rw [hb, h]
    rfl

/-- Witness for C5 on a concrete request with short codes and empty
subcategory/quantity. -/
theorem C5_normalization_before_keying_witness :
    create_product emptyStore 1 { sampleEmptyCodes with subcategory_code := "12" }
      = create_product emptyStore 1 { sampleEmptyCodes with subcategory_code := "2" } ∧
    (create_product emptyStore 1 sampleEmptyCodes).1.brand_code.length = 3 ∧
    (create_product emptyStore 1 sampleEmptyCodes).1.category_code.length = 2 ∧
    (create_product emptyStore 1 sampleEmptyCodes).1.subcategory_code = "0" ∧
    (create_product emptyStore 1 sampleEmptyCodes).1.quantity_code = "0" := by
  have h := C5_normalization_before_keying emptyStore 1 sampleEmptyCodes
  exact ⟨h.1, h.2.1 (by decide), h.2.2.1 (by decide),
    h.2.2.2.2.2.1 rfl, h.2.2.2.2.2.2 rfl⟩

/-- C6: a creation request with an empty full_product_name fails the schema
validation and is rejected with a ValidationError before the service (and
hence the allocator) runs; the store is unchanged and a subsequent allocation
for any fresh key still returns 1, not 2. -/
theorem C6_validation_before_allocation (st : Store) (tenant_id : Nat)
    (d : ProductCreate) (hname : d.full_product_name = "") :
    post_product st tenant_id d = Except.error "ValidationError" ∧
    post_product_store st tenant_id d = st ∧
    ∀ k, st.counters k = none →
      (get_next_sequence (post_product_store st tenant_id d).counters k).1 = 1 := by
  have hvalid : product_create_valid d = false := by
    unfold product_create_valid
    rw [hname]
    simp
  have hpost : post_product st tenant_id d = Except.error "ValidationError" := by
    unfold post_product
    rw [hvalid]
    rfl
  have hstore : post_product_store st tenant_id d = st := by
    unfold post_product_store
    rw [hpost]
  refine ⟨hpost, hstore, ?_⟩
  intro k hk
  rw [hstore]
  show nextFromRow (counterRead st.counters k) = 1
  rw [show counterRead st.counters k = st.counters k from rfl, hk]
  rfl

/-- Witness for C6 at a concrete empty-name request over the empty store. -/
theorem C6_validation_before_allocation_witness :
    post_product emptyStore 1 sampleNoName = Except.error "ValidationError" ∧
    post_product_store emptyStore 1 sampleNoName = emptyStore ∧
    (get_next_sequence (post_product_store emptyStore 1 sampleNoName).counters k0).1 = 1 := by
  have h := C6_validation_before_allocation emptyStore 1 sampleNoName rfl
  exact ⟨h.1, h.2.1, h.2.2 k0 rfl⟩

/-- C7: key isolation — an allocation for key k rewrites only the row of k and
leaves every other key's row unchanged; and two products created under
different tenants with identical codes each draw from their own counter, both
receiving product_seq "01". -/
theorem C7_key_isolation (db : Counters) (k q : AllocKey) (hq : q ≠ k)
    (st : Store) (t1 t2 : Nat) (d : ProductCreate) (ht : t1 ≠ t2)
    (h1 : st.counters (allocKeyOf t1 d) = none)
    (h2 : st.counters (allocKeyOf t2 d) = none) :
    (get_next_sequence db k).2 q = db q ∧
    (create_product st t1 d).1.product_seq = "01" ∧
    (create_product (create_product st t1 d).2 t2 d).1.product_seq = "01" := by
  refine ⟨?_, ?_, ?_⟩
  · show counterWrite db k (nextFromRow (counterRead db k)) q = db q
    unfold counterWrite
    rw [if_neg hq]
  · have hseq : (create_product st t1 d).1.product_seq
        = pyZfill (toString (nextFromRow (st.counters (allocKeyOf t1 d)))) 2 := rfl
    rw [hseq, h1]
    rfl
  · have hkey : allocKeyOf t2 d ≠ allocKeyOf t1 d := by
      intro heq
      exact ht (congrArg AllocKey.tenant_id heq).symm
    have hcounters : (create_product st t1 d).2.counters (allocKeyOf t2 d)
        = st.counters (allocKeyOf t2 d) := by
      show counterWrite st.counters (allocKeyOf t1 d)
          (nextFromRow (counterRead st.counters (allocKeyOf t1 d))) (allocKeyOf t2 d)
        = st.counters (allocKeyOf t2 d)
      unfold counterWrite
      rw [if_neg hkey]
    have hseq2 : (create_product (create_product st t1 d).2 t2 d).1.product_seq
        = pyZfill (toString (nextFromRow
            ((create_product st t1 d).2.counters (allocKeyOf t2 d)))) 2 := rfl
    rw [hseq2, hcounters, h2]
    rfl

/-- Witness for C7 at concrete keys, tenants 1 and 2 and the empty store. -/
theorem C7_key_isolation_witness :
    (get_next_sequence db1 k0).2 ⟨2, "001", "01", "1", "1"⟩
      = db1 ⟨2, "001", "01", "1", "1"⟩ ∧
    (create_product emptyStore 1 sampleA1).1.product_seq = "01" ∧
    (create_product (create_product emptyStore 1 sampleA1).2 2 sampleA1).1.product_seq
      = "01" := by
  have h := C7_key_isolation db1 k0 ⟨2, "001", "01", "1", "1"⟩ (by decide)
    emptyStore 1 2 sampleA1 (by decide) rfl rfl
  exact h


/-- Fixture: the one-character string "İ" (U+0130, LATIN CAPITAL LETTER I
WITH DOT ABOVE), the input on which CPython's slug is not idempotent. -/
def dottedI : String := String.mk [Char.ofNat 304]

/-- C9 counterexample: slug derivation is not idempotent on every string.
CPython lowers 'İ' (U+0130) to the two-character "i" + U+0307 and the
combining dot above is not alphanumeric, so slugging "İ" yields
"i" + U+0307, while slugging that again maps the combining dot to '-' and
strips it, yielding "i" — re-slugging changes the slug. -/
theorem C9_slug_not_idempotent :
    _slug_from_name dottedI = String.mk [Char.ofNat 105, Char.ofNat 775] ∧
    _slug_from_name (_slug_from_name dottedI) = String.mk [Char.ofNat 105] ∧
    _slug_from_name (_slug_from_name dottedI) ≠ _slug_from_name dottedI := by
  decide

/-- C9 (amended): slug derivation is a pure deterministic function of the
name (no state, randomness or locale enters the definition);
`_slug_from_name "Shin Ramyun!!"` is `"shin-ramyun"`; and slug derivation is
idempotent on every string of ASCII characters — in particular on every
already-slugged ASCII slug. Idempotence over all unicode strings fails,
exactly at the U+0130 input of the counterexample. -/
theorem C9_slug_deterministic_idempotent_ascii :
    _slug_from_name "Shin Ramyun!!" = "shin-ramyun" ∧
    ∀ x : String, (∀ c ∈ x.data, c.toNat < 128) →
      _slug_from_name (_slug_from_name x) = _slug_from_name x := by
  constructor
  · decide
  · intro x hx
    show String.mk (stripDashes (List.flatten
        ((String.mk (stripDashes (List.flatten (x.data.map slugChar)))).data.map slugChar)))
      = String.mk (stripDashes (List.flatten (x.data.map slugChar)))
    show String.mk (stripDashes (List.flatten
        ((stripDashes (List.flatten (x.data.map slugChar))).map slugChar)))
      = String.mk (stripDashes (List.flatten (x.data.map slugChar)))
    rw [slug_ascii_map_fixed x hx, stripDashes_idem]

/-- Witness for C9 (amended) at the ASCII name "Shin Ramyun!!". -/
theorem C9_slug_deterministic_idempotent_ascii_witness :
    _slug_from_name "Shin Ramyun!!" = "shin-ramyun" ∧
    _slug_from_name (_slug_from_name "Shin Ramyun!!")
      = _slug_from_name "Shin Ramyun!!" := by
  have h := C9_slug_deterministic_idempotent_ascii
  exact ⟨h.1, h.2 "Shin Ramyun!!" (by decide)⟩

/-- A name with no (Python-)alphanumeric character slugs to the empty
string. -/
theorem slug_of_no_alnum (s : String)
    (h : ∀ c ∈ s.data, pyIsAlnum c = false) : _slug_from_name s = "" := by
  unfold _slug_from_name
  have hall : ∀ x ∈ List.flatten (s.data.map slugChar), isDash x = true := by
    intro x hx
    obtain ⟨L, hL, hxL⟩ := List.mem_flatten.mp hx
    obtain ⟨c, hc, hcL⟩ := List.mem_map.mp hL
    have hsc : slugChar c = ['-'] := by
      unfold slugChar
      rw [if_neg (by rw [h c hc]; exact Bool.false_ne_true)]
    rw [← hcL, hsc] at hxL
    have hxd : x = '-' := by simpa using hxL
    rw [hxd]
    rfl
  have hnil : (List.flatten (s.data.map slugChar)).dropWhile isDash = [] :=
    List.dropWhile_eq_nil_iff.mpr hall
  unfold stripDashes
  rw [hnil]
  rfl

/-- C10: when the product name contains no alphanumeric character, the derived
slug is the empty string, and `create_product` still persists the product row
(with `product_slug = ""`, a `String`, never a null) instead of rejecting the
request; schema validation does not reject such a name either, as long as the
usual length bounds hold. -/
theorem C10_non_alnum_name_empty_slug (st : Store) (tenant_id : Nat)
    (d : ProductCreate) (hname : ∀ c ∈ d.full_product_name.data, pyIsAlnum c = false) :
    (create_product st tenant_id d).1.product_slug = "" ∧
    (create_product st tenant_id d).1 ∈ (create_product st tenant_id d).2.products ∧
    (product_create_valid d = true →
      post_product st tenant_id d = Except.ok (create_product st tenant_id d)) := by
  refine ⟨?_, ?_, ?_⟩
  · have hb : (create_product st tenant_id d).1.product_slug
        = _slug_from_name d.full_product_name := rfl
    rw [hb, slug_of_no_alnum _ hname]
  · show (create_product st tenant_id d).1 ∈ st.products ++ [(create_product st tenant_id d).1]
    simp
  · intro hvalid
    unfold post_product
    rw [hvalid]
    rfl

/-- Witness for C10 at the concrete name "!!!". -/
theorem C10_non_alnum_name_empty_slug_witness :
    (create_product emptyStore 1 sampleBang).1.product_slug = "" ∧
    (create_product emptyStore 1 sampleBang).1
      ∈ (create_product emptyStore 1 sampleBang).2.products ∧
    post_product emptyStore 1 sampleBang
      = Except.ok (create_product emptyStore 1 sampleBang) := by
  have h := C10_non_alnum_name_empty_slug emptyStore 1 sampleBang (by decide)
  exact ⟨h.1, h.2.1, h.2.2 (by decide)⟩

end SrKasse
